import Mathlib

/-!
Shallow embedding of the ext4-snapshots journaling credit subsystem from
src/fs/ext4/ext4_jbd2.h (snapshot COW credit macros and the inline handle
helpers), with the snapshot configuration options
(CONFIG_EXT4_FS_SNAPSHOT_JOURNAL_CREDITS, CONFIG_EXT4_FS_SNAPSHOT) compiled in
and the per-filesystem EXT4_SNAPSHOTS(sb) flag modelled as a Bool parameter.
Credit counters are C ints; they are embedded as Int (the kernel never lets
these counters approach the 32-bit bound, and signed overflow is undefined in
C, so the non-wrapping reading is the defined behavior).
-/

namespace Ext4Jbd2

/-- Per-mount configuration bits consumed by the credit formulas.
quota_type_count models the external constant MAXQUOTAS from linux/quota.h
(the number of quota types), which multiplies the per-type quota credits. -/
structure FilesystemConfig where
  extents_enabled : Bool
  quota_enabled : Bool
  quota_type_count : Nat
  snapshots_enabled : Bool
deriving DecidableEq

/-- EXT4_SINGLEDATA_TRANS_BLOCKS(sb): 27U if the extents incompat feature is
set, else 8U (src/fs/ext4/ext4_jbd2.h:37-39). -/
def EXT4_SINGLEDATA_TRANS_BLOCKS (cfg : FilesystemConfig) : Nat :=
  if cfg.extents_enabled then 27 else 8

/-- EXT4_XATTR_TRANS_BLOCKS = 6U (src/fs/ext4/ext4_jbd2.h:45). -/
def EXT4_XATTR_TRANS_BLOCKS : Nat := 6

/-- EXT4_QUOTA_TRANS_BLOCKS(sb): under CONFIG_QUOTA, test_opt(sb, QUOTA) ? 1 : 0;
without CONFIG_QUOTA it is 0, which the quota_enabled = false case also covers
(src/fs/ext4/ext4_jbd2.h:151,160). -/
def EXT4_QUOTA_TRANS_BLOCKS (cfg : FilesystemConfig) : Nat :=
  if cfg.quota_enabled then 1 else 0

/-- EXT4_MAXQUOTAS_TRANS_BLOCKS(sb) = MAXQUOTAS * EXT4_QUOTA_TRANS_BLOCKS(sb)
(src/fs/ext4/ext4_jbd2.h:164). -/
def EXT4_MAXQUOTAS_TRANS_BLOCKS (cfg : FilesystemConfig) : Nat :=
  cfg.quota_type_count * EXT4_QUOTA_TRANS_BLOCKS cfg

/-- EXT4_DATA_TRANS_BLOCKS(sb) = EXT4_SINGLEDATA_TRANS_BLOCKS(sb) +
EXT4_XATTR_TRANS_BLOCKS - 2 + EXT4_MAXQUOTAS_TRANS_BLOCKS(sb)
(src/fs/ext4/ext4_jbd2.h:53-55). -/
def EXT4_DATA_TRANS_BLOCKS (cfg : FilesystemConfig) : Nat :=
  EXT4_SINGLEDATA_TRANS_BLOCKS cfg + EXT4_XATTR_TRANS_BLOCKS - 2 +
    EXT4_MAXQUOTAS_TRANS_BLOCKS cfg

/-- EXT4_DELETE_TRANS_BLOCKS(sb) = 2 * EXT4_DATA_TRANS_BLOCKS(sb) + 64
(src/fs/ext4/ext4_jbd2.h:69). -/
def EXT4_DELETE_TRANS_BLOCKS (cfg : FilesystemConfig) : Nat :=
  2 * EXT4_DATA_TRANS_BLOCKS cfg + 64

/-- EXT4_WRITE_CREDITS = 1 (src/fs/ext4/ext4_jbd2.h:88). -/
def EXT4_WRITE_CREDITS : Int := 1

/-- EXT4_ALLOC_CREDITS = 3 (src/fs/ext4/ext4_jbd2.h:91). -/
def EXT4_ALLOC_CREDITS : Int := 3

/-- EXT4_COW_BITMAP_CREDITS = 3*EXT4_ALLOC_CREDITS (src/fs/ext4/ext4_jbd2.h:94). -/
def EXT4_COW_BITMAP_CREDITS : Int := 3 * EXT4_ALLOC_CREDITS

/-- EXT4_COW_BLOCK_CREDITS = 3*EXT4_ALLOC_CREDITS + 2*EXT4_WRITE_CREDITS
(src/fs/ext4/ext4_jbd2.h:97). -/
def EXT4_COW_BLOCK_CREDITS : Int := 3 * EXT4_ALLOC_CREDITS + 2 * EXT4_WRITE_CREDITS

/-- EXT4_COW_CREDITS = EXT4_COW_BLOCK_CREDITS + EXT4_COW_BITMAP_CREDITS
(src/fs/ext4/ext4_jbd2.h:101-102). -/
def EXT4_COW_CREDITS : Int := EXT4_COW_BLOCK_CREDITS + EXT4_COW_BITMAP_CREDITS

/-- EXT4_SNAPSHOT_CREDITS = 3*EXT4_WRITE_CREDITS (src/fs/ext4/ext4_jbd2.h:105). -/
def EXT4_SNAPSHOT_CREDITS : Int := 3 * EXT4_WRITE_CREDITS

/-- EXT4_SNAPSHOT_TRANS_BLOCKS(n) = n*(1+EXT4_COW_CREDITS)+EXT4_SNAPSHOT_CREDITS
(src/fs/ext4/ext4_jbd2.h:121-122). -/
def EXT4_SNAPSHOT_TRANS_BLOCKS (n : Int) : Int :=
  n * (1 + EXT4_COW_CREDITS) + EXT4_SNAPSHOT_CREDITS

/-- EXT4_SNAPSHOT_START_TRANS_BLOCKS(n) =
n*(1+EXT4_COW_CREDITS)+2*EXT4_SNAPSHOT_CREDITS (src/fs/ext4/ext4_jbd2.h:123-124). -/
def EXT4_SNAPSHOT_START_TRANS_BLOCKS (n : Int) : Int :=
  n * (1 + EXT4_COW_CREDITS) + 2 * EXT4_SNAPSHOT_CREDITS

/-- EXT4_NOJOURNAL_MAX_REF_COUNT = 4096UL (src/fs/ext4/ext4_jbd2.h:315). -/
def EXT4_NOJOURNAL_MAX_REF_COUNT : Nat := 4096

/-- ext4_handle_valid(handle): returns 0 when the handle's address, read as an
unsigned long, is below EXT4_NOJOURNAL_MAX_REF_COUNT, else 1
(src/fs/ext4/ext4_jbd2.h:319-324). Addresses are embedded as Nat. -/
def ext4_handle_valid (addr : Nat) : Bool :=
  if addr < EXT4_NOJOURNAL_MAX_REF_COUNT then false else true

/-- Mutable per-transaction handle state: the jbd2 handle fields the credit
helpers read and write (h_buffer_credits, and the snapshot-patch fields
h_user_credits / h_base_credits, all C ints), the h_sync flag, and the
abstract aborted condition that jbd2's is_handle_aborted reports. -/
structure HandleState where
  h_buffer_credits : Int
  h_user_credits : Int
  h_base_credits : Int
  h_sync : Bool
  aborted : Bool
deriving DecidableEq

/-- Modelled from the spec: jbd2's is_handle_aborted (outside src/), the
Journal collaborator's is_aborted(Handle) delegation; it reports whether the
handle/journal has been aborted. -/
def is_handle_aborted (h : HandleState) : Bool := h.aborted

/-- ext4_handle_sync(handle): sets h_sync = 1 when the handle is valid,
otherwise does nothing (src/fs/ext4/ext4_jbd2.h:326-330). -/
def ext4_handle_sync (addr : Nat) (h : HandleState) : HandleState :=
  if ext4_handle_valid addr then { h with h_sync := true } else h

/-- ext4_handle_is_aborted(handle): delegates to is_handle_aborted on a valid
handle, else returns 0 (src/fs/ext4/ext4_jbd2.h:348-353). -/
def ext4_handle_is_aborted (addr : Nat) (h : HandleState) : Bool :=
  if ext4_handle_valid addr then is_handle_aborted h else false

/-- EXT4_SNAPSHOT_HAS_TRANS_BLOCKS(handle, n):
h_buffer_credits >= EXT4_SNAPSHOT_TRANS_BLOCKS(n) && h_user_credits >= n
(src/fs/ext4/ext4_jbd2.h:129-131). -/
def EXT4_SNAPSHOT_HAS_TRANS_BLOCKS (h : HandleState) (n : Int) : Bool :=
  decide (EXT4_SNAPSHOT_TRANS_BLOCKS n ≤ h.h_buffer_credits) &&
    decide (n ≤ h.h_user_credits)

/-- ext4_handle_has_enough_credits(handle, needed) under
CONFIG_EXT4_FS_SNAPSHOT_JOURNAL_CREDITS: invalid handle returns 1; with
EXT4_SNAPSHOTS(sb) it returns EXT4_SNAPSHOT_HAS_TRANS_BLOCKS(handle, needed);
otherwise 0 iff h_buffer_credits < needed (src/fs/ext4/ext4_jbd2.h:355-373).
snap is the EXT4_SNAPSHOTS(sb) flag of the handle's superblock. -/
def ext4_handle_has_enough_credits (addr : Nat) (snap : Bool) (h : HandleState)
    (needed : Int) : Bool :=
  if !ext4_handle_valid addr then true
  else if snap then EXT4_SNAPSHOT_HAS_TRANS_BLOCKS h needed
  else if h.h_buffer_credits < needed then false
  else true

/-- Outcome of a wrapped journal credit operation: the returned error code,
the handle state afterwards, and the buffer-credit count passed to the
underlying jbd2 call (none when the Journal was not contacted). -/
structure JournalOutcome where
  err : Int
  state : HandleState
  journalCall : Option Int
deriving DecidableEq

/-- Modelled from the spec: jbd2_journal_extend (outside src/), the Journal
collaborator's extend(Handle, buffer_credits) -> Ok | Err(WouldExceedJournalSize).
When the Journal grants the request it adds the requested credits to
h_buffer_credits and returns 0; when it refuses, the handle is unchanged and a
nonzero value is returned (jbd2 returns 1 on refusal). The grant parameter is
the Journal's decision. -/
def jbd2_journal_extend (grant : Bool) (h : HandleState) (credits : Int) :
    Int × HandleState :=
  if grant then (0, { h with h_buffer_credits := h.h_buffer_credits + credits })
  else (1, h)

/-- Modelled from the spec: jbd2_journal_restart (outside src/), the Journal
collaborator's restart(Handle, buffer_credits) -> Ok | Err(Abort). On success it
commits the old transaction and reopens with exactly the requested buffer
credits; on an aborted log it returns -EROFS (-30) and the handle becomes
aborted. The jabort parameter says whether the log is aborted. -/
def jbd2_journal_restart (jabort : Bool) (h : HandleState) (credits : Int) :
    Int × HandleState :=
  if jabort then (-30, { h with aborted := true })
  else (0, { h with h_buffer_credits := credits })

/-- __ext4_journal_extend(where, handle, nblocks)
(src/fs/ext4/ext4_jbd2.h:400-426): invalid handle returns 0 untouched; with
EXT4_SNAPSHOTS(sb) the credits to request become
EXT4_SNAPSHOT_TRANS_BLOCKS(h_user_credits + nblocks) - h_buffer_credits, else
they are nblocks; jbd2_journal_extend is called only when credits > 0; with
snapshots enabled and no error, h_base_credits and h_user_credits each grow by
nblocks. snap is EXT4_SNAPSHOTS(sb); grant is the Journal's decision. -/
def __ext4_journal_extend (addr : Nat) (snap grant : Bool) (h : HandleState)
    (nblocks : Int) : JournalOutcome :=
  if !ext4_handle_valid addr then ⟨0, h, none⟩
  else
    let credits : Int :=
      if snap then
        EXT4_SNAPSHOT_TRANS_BLOCKS (h.h_user_credits + nblocks) -
          h.h_buffer_credits
      else nblocks
    let res : Int × HandleState :=
      if credits > 0 then jbd2_journal_extend grant h credits else (0, h)
    let call : Option Int := if credits > 0 then some credits else none
    if snap && res.1 = 0 then
      ⟨res.1,
        { res.2 with
          h_base_credits := res.2.h_base_credits + nblocks,
          h_user_credits := res.2.h_user_credits + nblocks },
        call⟩
    else ⟨res.1, res.2, call⟩

/-- __ext4_journal_restart(where, handle, nblocks)
(src/fs/ext4/ext4_jbd2.h:435-455): invalid handle returns 0 untouched; the
credits requested are EXT4_SNAPSHOT_START_TRANS_BLOCKS(nblocks) when
EXT4_SNAPSHOTS(sb), else nblocks; jbd2_journal_restart is always called; with
snapshots enabled and no error, h_base_credits and h_user_credits are set to
nblocks. snap is EXT4_SNAPSHOTS(sb); jabort says whether the log is aborted. -/
def __ext4_journal_restart (addr : Nat) (snap jabort : Bool) (h : HandleState)
    (nblocks : Int) : JournalOutcome :=
  if !ext4_handle_valid addr then ⟨0, h, none⟩
  else
    let credits : Int :=
      if snap then EXT4_SNAPSHOT_START_TRANS_BLOCKS nblocks else nblocks
    let res : Int × HandleState := jbd2_journal_restart jabort h credits
    if snap && res.1 = 0 then
      ⟨res.1,
        { res.2 with h_base_credits := nblocks, h_user_credits := nblocks },
        some credits⟩
    else ⟨res.1, res.2, some credits⟩

/-- Modelled from the spec: __ext4_journal_start (declared at
src/fs/ext4/ext4_jbd2.h:299-300, defined outside src/). With snapshots enabled
it requests EXT4_SNAPSHOT_START_TRANS_BLOCKS(nblocks) buffer credits from the
Journal and sets h_user_credits = h_base_credits = nblocks; with snapshots
disabled it requests nblocks. ok says whether the Journal could open the
transaction; on failure the result is none. The first component of a successful
result is the requested buffer-credit count, the second the fresh handle state
(granted exactly the requested credits). -/
def __ext4_journal_start (snap ok : Bool) (nblocks : Int) :
    Option (Int × HandleState) :=
  if !ok then none
  else if snap then
    some (EXT4_SNAPSHOT_START_TRANS_BLOCKS nblocks,
      ⟨EXT4_SNAPSHOT_START_TRANS_BLOCKS nblocks, nblocks, nblocks, false, false⟩)
  else some (nblocks, ⟨nblocks, nblocks, nblocks, false, false⟩)

/-- Data journaling mode selected by the mount's DATA_FLAGS option. -/
inductive DataMode where
  | journalData
  | orderedData
  | writebackData
deriving DecidableEq

/-- The inode facts read by the should_*_data predicates: whether
EXT4_JOURNAL(inode) is non-NULL, whether S_ISREG(i_mode), the superblock's
EXT4_SNAPSHOTS flag, the mount's test_opt(sb, DATA_FLAGS) mode, and the
per-inode EXT4_INODE_JOURNAL_DATA flag. -/
structure Inode where
  has_journal : Bool
  is_reg : Bool
  sb_snapshots : Bool
  mount_data_mode : DataMode
  inode_journal_data : Bool
deriving DecidableEq

/-- ext4_should_journal_data(inode) with CONFIG_EXT4_FS_SNAPSHOT
(src/fs/ext4/ext4_jbd2.h:515-531): no journal -> 0; non-regular -> 1; snapshots
enabled -> 0; mount journal-data mode -> 1; inode journal-data flag -> 1;
else 0. -/
def ext4_should_journal_data (i : Inode) : Bool :=
  if !i.has_journal then false
  else if !i.is_reg then true
  else if i.sb_snapshots then false
  else if i.mount_data_mode = DataMode.journalData then true
  else if i.inode_journal_data then true
  else false

/-- ext4_should_order_data(inode) with CONFIG_EXT4_FS_SNAPSHOT
(src/fs/ext4/ext4_jbd2.h:533-549): no journal -> 0; non-regular -> 0; snapshots
enabled -> 1; inode journal-data flag -> 0; mount ordered mode -> 1; else 0. -/
def ext4_should_order_data (i : Inode) : Bool :=
  if !i.has_journal then false
  else if !i.is_reg then false
  else if i.sb_snapshots then true
  else if i.inode_journal_data then false
  else if i.mount_data_mode = DataMode.orderedData then true
  else false

/-- ext4_should_writeback_data(inode) with CONFIG_EXT4_FS_SNAPSHOT
(src/fs/ext4/ext4_jbd2.h:551-567): no journal -> 1; snapshots enabled -> 0;
non-regular -> 0; inode journal-data flag -> 0; mount writeback mode -> 1;
else 0. -/
def ext4_should_writeback_data (i : Inode) : Bool :=
  if !i.has_journal then true
  else if i.sb_snapshots then false
  else if !i.is_reg then false
  else if i.inode_journal_data then false
  else if i.mount_data_mode = DataMode.writebackData then true
  else false

/-- C1: the snapshot credit model satisfies cow_credits_per_op
(EXT4_COW_CREDITS) = 20, snapshot_transaction_credits(n)
(EXT4_SNAPSHOT_TRANS_BLOCKS) = 21*n + 3 and snapshot_start_credits(n)
(EXT4_SNAPSHOT_START_TRANS_BLOCKS) = 21*n + 6 for every n, derived from the
base constants write_credits = 1, alloc_credits = 3, cow_bitmap_credits = 9,
cow_block_credits = 11, snapshot_fixed_credits = 3. -/
theorem snapshot_credit_constants :
    EXT4_WRITE_CREDITS = 1 ∧ EXT4_ALLOC_CREDITS = 3 ∧
    EXT4_COW_BITMAP_CREDITS = 9 ∧ EXT4_COW_BLOCK_CREDITS = 11 ∧
    EXT4_SNAPSHOT_CREDITS = 3 ∧ EXT4_COW_CREDITS = 20 ∧
    (∀ n : Int, EXT4_SNAPSHOT_TRANS_BLOCKS n = 21 * n + 3) ∧
    (∀ n : Int, EXT4_SNAPSHOT_START_TRANS_BLOCKS n = 21 * n + 6) := by
  refine ⟨rfl, rfl, by decide, by decide, by decide, by decide, ?_, ?_⟩
  · intro n
    simp only [EXT4_SNAPSHOT_TRANS_BLOCKS, EXT4_COW_CREDITS,
      EXT4_COW_BLOCK_CREDITS, EXT4_COW_BITMAP_CREDITS, EXT4_ALLOC_CREDITS,
      EXT4_WRITE_CREDITS, EXT4_SNAPSHOT_CREDITS]
    ring
  · intro n
    simp only [EXT4_SNAPSHOT_START_TRANS_BLOCKS, EXT4_COW_CREDITS,
      EXT4_COW_BLOCK_CREDITS, EXT4_COW_BITMAP_CREDITS, EXT4_ALLOC_CREDITS,
      EXT4_WRITE_CREDITS, EXT4_SNAPSHOT_CREDITS]
    ring

/-- C2: on a valid handle, with snapshots enabled
ext4_handle_has_enough_credits(handle, n) is true iff h_buffer_credits is at
least 21*n + 3 and h_user_credits is at least n; with snapshots disabled it is
true iff h_buffer_credits is at least n, with no user-credits check. -/
theorem has_enough_credits_characterization (addr : Nat) (snap : Bool)
    (h : HandleState) (n : Int) (hv : ext4_handle_valid addr = true) :
    (snap = true →
      (ext4_handle_has_enough_credits addr snap h n = true ↔
        21 * n + 3 ≤ h.h_buffer_credits ∧ n ≤ h.h_user_credits)) ∧
    (snap = false →
      (ext4_handle_has_enough_credits addr snap h n = true ↔
        n ≤ h.h_buffer_credits)) := by
  constructor <;> rintro rfl
  · simp only [ext4_handle_has_enough_credits, hv, Bool.not_true,
      Bool.false_eq_true, if_false, if_true, EXT4_SNAPSHOT_HAS_TRANS_BLOCKS,
      Bool.and_eq_true, decide_eq_true_eq, EXT4_SNAPSHOT_TRANS_BLOCKS,
      EXT4_COW_CREDITS, EXT4_COW_BLOCK_CREDITS, EXT4_COW_BITMAP_CREDITS,
      EXT4_ALLOC_CREDITS, EXT4_WRITE_CREDITS, EXT4_SNAPSHOT_CREDITS]
    constructor <;> rintro ⟨h1, h2⟩ <;> exact ⟨by omega, h2⟩
  · by_cases hb : h.h_buffer_credits < n
    · simp only [ext4_handle_has_enough_credits, hv, Bool.not_true,
        Bool.false_eq_true, if_false, if_pos hb, Bool.false_eq_true]
      constructor
      · intro hfalse
        exact absurd hfalse (by simp)
      · intro hle
        omega
    · simp only [ext4_handle_has_enough_credits, hv, Bool.not_true,
        Bool.false_eq_true, if_false, if_neg hb]
      constructor
      · intro _
        omega
      · intro _
        trivial


/-- Witness for C2: a fresh snapshot handle with 111 granted buffer credits and
5 user credits passes the check for 4 needed operations. -/
theorem has_enough_credits_characterization_witness :
    ext4_handle_valid 4096 = true ∧
    ext4_handle_has_enough_credits 4096 true ⟨111, 5, 5, false, false⟩ 4 = true :=
  ⟨by decide,
    ((has_enough_credits_characterization 4096 true ⟨111, 5, 5, false, false⟩ 4
      (by decide)).1 rfl).mpr (by decide)⟩

/-- C3: on a valid handle with snapshots enabled, __ext4_journal_extend
computes delta = EXT4_SNAPSHOT_TRANS_BLOCKS(h_user_credits + n) -
h_buffer_credits; when delta is non-positive it returns 0 without contacting
the Journal, and when delta is positive it asks the Journal to extend by
exactly delta; on success h_user_credits and h_base_credits each grow by
exactly n. In the spec's Scenario B, start(5) requests 111 credits with
user credits 5, and a granted extend(+3) yields user credits 8 with a
requested delta of 60. -/
theorem extend_snapshot_spec (addr : Nat) (grant : Bool) (h : HandleState)
    (n : Int) (hv : ext4_handle_valid addr = true) :
    (EXT4_SNAPSHOT_TRANS_BLOCKS (h.h_user_credits + n) - h.h_buffer_credits ≤ 0 →
      __ext4_journal_extend addr true grant h n =
        ⟨0, { h with h_user_credits := h.h_user_credits + n,
                     h_base_credits := h.h_base_credits + n }, none⟩) ∧
    (0 < EXT4_SNAPSHOT_TRANS_BLOCKS (h.h_user_credits + n) - h.h_buffer_credits →
      (__ext4_journal_extend addr true grant h n).journalCall =
        some (EXT4_SNAPSHOT_TRANS_BLOCKS (h.h_user_credits + n) -
          h.h_buffer_credits)) ∧
    (0 < EXT4_SNAPSHOT_TRANS_BLOCKS (h.h_user_credits + n) - h.h_buffer_credits →
      grant = true →
      __ext4_journal_extend addr true grant h n =
        ⟨0, ⟨EXT4_SNAPSHOT_TRANS_BLOCKS (h.h_user_credits + n),
             h.h_user_credits + n, h.h_base_credits + n, h.h_sync, h.aborted⟩,
         some (EXT4_SNAPSHOT_TRANS_BLOCKS (h.h_user_credits + n) -
           h.h_buffer_credits)⟩) ∧
    __ext4_journal_start true true 5 = some (111, ⟨111, 5, 5, false, false⟩) ∧
    (__ext4_journal_extend 4096 true true ⟨111, 5, 5, false, false⟩
      3).state.h_user_credits = 8 ∧
    (__ext4_journal_extend 4096 true true ⟨111, 5, 5, false, false⟩
      3).journalCall = some 60 := by
  refine ⟨?_, ?_, ?_, by decide, by decide, by decide⟩
  · intro hd
    have hnot : ¬ (EXT4_SNAPSHOT_TRANS_BLOCKS (h.h_user_credits + n) -
        h.h_buffer_credits > 0) := by omega
    simp [__ext4_journal_extend, hv, hnot]
  · intro hd
    have hd2 : h.h_buffer_credits <
        EXT4_SNAPSHOT_TRANS_BLOCKS (h.h_user_credits + n) := by omega
    by_cases hg : grant <;>
      simp [__ext4_journal_extend, hv, jbd2_journal_extend, hg, hd, hd2]
  · intro hd hg
    subst hg
    have hd2 : h.h_buffer_credits <
        EXT4_SNAPSHOT_TRANS_BLOCKS (h.h_user_credits + n) := by omega
    have hb : h.h_buffer_credits +
        (EXT4_SNAPSHOT_TRANS_BLOCKS (h.h_user_credits + n) -
          h.h_buffer_credits) =
        EXT4_SNAPSHOT_TRANS_BLOCKS (h.h_user_credits + n) := by ring
    simp [__ext4_journal_extend, hv, hd, hd2, jbd2_journal_extend, hb]

/-- Witness for C3: Scenario B's handle after start(5), extended by 3
operations, asks the Journal for exactly the computed positive delta. -/
theorem extend_snapshot_spec_witness :
    0 < EXT4_SNAPSHOT_TRANS_BLOCKS
        ((⟨111, 5, 5, false, false⟩ : HandleState).h_user_credits + 3) -
      (⟨111, 5, 5, false, false⟩ : HandleState).h_buffer_credits ∧
    (__ext4_journal_extend 4096 true true ⟨111, 5, 5, false, false⟩
        3).journalCall =
      some (EXT4_SNAPSHOT_TRANS_BLOCKS
          ((⟨111, 5, 5, false, false⟩ : HandleState).h_user_credits + 3) -
        (⟨111, 5, 5, false, false⟩ : HandleState).h_buffer_credits) :=
  ⟨by decide, (extend_snapshot_spec 4096 true ⟨111, 5, 5, false, false⟩ 3
    (by decide)).2.1 (by decide)⟩

/-- C4 (counterexample): the claim says restart on success sets
h_user_credits = h_base_credits = n for every handle, but with snapshots
disabled a successful __ext4_journal_restart leaves both counters untouched:
restarting a valid handle holding user and base credits 7 for 2 ops succeeds
with error 0 yet keeps both counters at 7. -/
theorem C4_counterexample :
    ext4_handle_valid 4096 = true ∧
    (__ext4_journal_restart 4096 false false ⟨50, 7, 7, false, false⟩
      2).err = 0 ∧
    (__ext4_journal_restart 4096 false false ⟨50, 7, 7, false, false⟩
      2).state.h_user_credits ≠ 2 ∧
    (__ext4_journal_restart 4096 false false ⟨50, 7, 7, false, false⟩
      2).state.h_base_credits ≠ 2 := by
  decide

/-- C4 (amended): on a valid handle, __ext4_journal_restart requests
EXT4_SNAPSHOT_START_TRANS_BLOCKS(n) = 21*n + 6 buffer credits with snapshots
enabled (at least as many as __ext4_journal_start would request for the same
op count) and exactly n with snapshots disabled; on success with snapshots
enabled it hard-resets h_user_credits = h_base_credits = n, while with
snapshots disabled the two counters are left unchanged. -/
theorem restart_spec (addr : Nat) (snap jabort : Bool) (h : HandleState)
    (n : Int) (hv : ext4_handle_valid addr = true) :
    ((__ext4_journal_restart addr snap jabort h n).journalCall =
      some (if snap then 21 * n + 6 else n)) ∧
    (∀ ok p, __ext4_journal_start true ok n = some p →
      p.1 ≤ EXT4_SNAPSHOT_START_TRANS_BLOCKS n) ∧
    (snap = true → jabort = false →
      (__ext4_journal_restart addr snap jabort h n).err = 0 ∧
      (__ext4_journal_restart addr snap jabort h n).state.h_buffer_credits =
        21 * n + 6 ∧
      (__ext4_journal_restart addr snap jabort h n).state.h_user_credits = n ∧
      (__ext4_journal_restart addr snap jabort h n).state.h_base_credits = n) ∧
    (snap = false → jabort = false →
      (__ext4_journal_restart addr snap jabort h n).err = 0 ∧
      (__ext4_journal_restart addr snap jabort h n).state.h_buffer_credits = n ∧
      (__ext4_journal_restart addr snap jabort h n).state.h_user_credits =
        h.h_user_credits ∧
      (__ext4_journal_restart addr snap jabort h n).state.h_base_credits =
        h.h_base_credits) := by
  have hstart : EXT4_SNAPSHOT_START_TRANS_BLOCKS n = 21 * n + 6 := by
    simp only [EXT4_SNAPSHOT_START_TRANS_BLOCKS, EXT4_COW_CREDITS,
      EXT4_COW_BLOCK_CREDITS, EXT4_COW_BITMAP_CREDITS, EXT4_ALLOC_CREDITS,
      EXT4_WRITE_CREDITS, EXT4_SNAPSHOT_CREDITS]
    ring
  refine ⟨?_, ?_, ?_, ?_⟩
  · by_cases hs : snap <;> by_cases hj : jabort <;>
      simp [__ext4_journal_restart, hv, hs, hj, jbd2_journal_restart, hstart]
  · intro ok p hp
    by_cases ho : ok
    · obtain ⟨p1, p2⟩ := p
      simp [__ext4_journal_start, ho] at hp
      exact le_of_eq (by simp [hp.1])
    · simp [__ext4_journal_start, ho] at hp
  · rintro rfl rfl
    simp [__ext4_journal_restart, hv, jbd2_journal_restart, hstart]
  · rintro rfl rfl
    simp [__ext4_journal_restart, hv, jbd2_journal_restart]

/-- Witness for C4 (amended): a successful snapshot restart for 2 ops grants
21*2 + 6 buffer credits and hard-resets both counters to 2. -/
theorem restart_spec_witness :
    ext4_handle_valid 4096 = true ∧
    ((__ext4_journal_restart 4096 true false ⟨50, 7, 7, false, false⟩
      2).err = 0 ∧
    (__ext4_journal_restart 4096 true false ⟨50, 7, 7, false, false⟩
      2).state.h_buffer_credits = 21 * 2 + 6 ∧
    (__ext4_journal_restart 4096 true false ⟨50, 7, 7, false, false⟩
      2).state.h_user_credits = 2 ∧
    (__ext4_journal_restart 4096 true false ⟨50, 7, 7, false, false⟩
      2).state.h_base_credits = 2) :=
  ⟨by decide, (restart_spec 4096 true false ⟨50, 7, 7, false, false⟩ 2
    (by decide)).2.2.1 rfl rfl⟩

/-- C5 (counterexample): the claim says every credit check on an aborted valid
handle fails, but ext4_handle_has_enough_credits never consults the abort
flag: a valid aborted handle with 100 buffer credits and 10 user credits still
passes the check for 1 needed operation. -/
theorem C5_counterexample :
    ext4_handle_valid 4096 = true ∧
    is_handle_aborted ⟨100, 10, 10, false, true⟩ = true ∧
    ext4_handle_is_aborted 4096 ⟨100, 10, 10, false, true⟩ = true ∧
    ext4_handle_has_enough_credits 4096 true ⟨100, 10, 10, false, true⟩ 1 =
      true := by
  decide

/-- C5 (amended): ext4_handle_has_enough_credits does not consult the aborted
flag: on a valid handle its result is identical with the flag set or clear, so
an aborted handle whose credit thresholds pass still passes the check; and on
an aborted handle __ext4_journal_extend with a non-positive computed delta
still reports success without contacting the Journal. Abort does not make the
credit checks of this header fail before stop. -/
theorem has_enough_credits_ignores_abort (addr : Nat) (snap grant : Bool)
    (b u bc : Int) (s : Bool) (n : Int) (hv : ext4_handle_valid addr = true) :
    (ext4_handle_has_enough_credits addr snap ⟨b, u, bc, s, true⟩ n =
      ext4_handle_has_enough_credits addr snap ⟨b, u, bc, s, false⟩ n) ∧
    (EXT4_SNAPSHOT_TRANS_BLOCKS (u + n) - b ≤ 0 →
      (__ext4_journal_extend addr true grant ⟨b, u, bc, s, true⟩ n).err = 0 ∧
      (__ext4_journal_extend addr true grant ⟨b, u, bc, s, true⟩
        n).journalCall = none) := by
  constructor
  · simp [ext4_handle_has_enough_credits, EXT4_SNAPSHOT_HAS_TRANS_BLOCKS]
  · intro hd
    have hnot : ¬ (EXT4_SNAPSHOT_TRANS_BLOCKS (u + n) - b > 0) := by omega
    simp only [__ext4_journal_extend, hv, Bool.not_true, Bool.false_eq_true,
      if_false] at *
    simp [hnot]

/-- Witness for C5 (amended): an aborted handle with 100 buffer credits and 10
user credits gets the same answer as its non-aborted twin. -/
theorem has_enough_credits_ignores_abort_witness :
    ext4_handle_valid 4096 = true ∧
    ext4_handle_has_enough_credits 4096 true ⟨100, 10, 10, false, true⟩ 1 =
      ext4_handle_has_enough_credits 4096 true ⟨100, 10, 10, false, false⟩ 1 :=
  ⟨by decide,
    (has_enough_credits_ignores_abort 4096 true true 100 10 10 false 1
      (by decide)).1⟩

/-- C6: with snapshots enabled the invariant h_buffer_credits is at least
21*h_user_credits + 3 holds after a successful start and is re-established by
every successful __ext4_journal_extend and __ext4_journal_restart on a valid
handle (start and restart grant 21*n + 6, and a successful extend raises the
granted credits to EXT4_SNAPSHOT_TRANS_BLOCKS of the new user count when the
delta was positive, or had them already when it was not). -/
theorem snapshot_credit_invariant (addr : Nat) (grant : Bool) (h : HandleState)
    (n : Int) (hv : ext4_handle_valid addr = true) :
    (∀ ok p, __ext4_journal_start true ok n = some p →
      EXT4_SNAPSHOT_TRANS_BLOCKS p.2.h_user_credits ≤ p.2.h_buffer_credits) ∧
    ((__ext4_journal_extend addr true grant h n).err = 0 →
      EXT4_SNAPSHOT_TRANS_BLOCKS
          (__ext4_journal_extend addr true grant h n).state.h_user_credits ≤
        (__ext4_journal_extend addr true grant h n).state.h_buffer_credits) ∧
    (∀ jabort, (__ext4_journal_restart addr true jabort h n).err = 0 →
      EXT4_SNAPSHOT_TRANS_BLOCKS
          (__ext4_journal_restart addr true jabort h n).state.h_user_credits ≤
        (__ext4_journal_restart addr true jabort h n).state.h_buffer_credits) := by
  have hstb : ∀ m : Int, EXT4_SNAPSHOT_TRANS_BLOCKS m = 21 * m + 3 := by
    intro m
    simp only [EXT4_SNAPSHOT_TRANS_BLOCKS, EXT4_COW_CREDITS,
      EXT4_COW_BLOCK_CREDITS, EXT4_COW_BITMAP_CREDITS, EXT4_ALLOC_CREDITS,
      EXT4_WRITE_CREDITS, EXT4_SNAPSHOT_CREDITS]
    ring
  have hsst : ∀ m : Int, EXT4_SNAPSHOT_START_TRANS_BLOCKS m = 21 * m + 6 := by
    intro m
    simp only [EXT4_SNAPSHOT_START_TRANS_BLOCKS, EXT4_COW_CREDITS,
      EXT4_COW_BLOCK_CREDITS, EXT4_COW_BITMAP_CREDITS, EXT4_ALLOC_CREDITS,
      EXT4_WRITE_CREDITS, EXT4_SNAPSHOT_CREDITS]
    ring
  refine ⟨?_, ?_, ?_⟩
  · intro ok p hp
    by_cases ho : ok
    · obtain ⟨p1, p2⟩ := p
      simp [__ext4_journal_start, ho] at hp
      rw [← hp.2]
      simp [hstb, hsst]
    · simp [__ext4_journal_start, ho] at hp
  · intro he
    by_cases hd : EXT4_SNAPSHOT_TRANS_BLOCKS (h.h_user_credits + n) -
        h.h_buffer_credits > 0
    · have hd2 : h.h_buffer_credits <
          EXT4_SNAPSHOT_TRANS_BLOCKS (h.h_user_credits + n) := by omega
      by_cases hg : grant
      · have hb : h.h_buffer_credits +
            (EXT4_SNAPSHOT_TRANS_BLOCKS (h.h_user_credits + n) -
              h.h_buffer_credits) =
            EXT4_SNAPSHOT_TRANS_BLOCKS (h.h_user_credits + n) := by ring
        simp [__ext4_journal_extend, hv, hd2, jbd2_journal_extend, hg, hb]
      · exfalso
        simp [__ext4_journal_extend, hv, hd2, jbd2_journal_extend, hg] at he
    · have h5 := hstb (h.h_user_credits + n)
      have hd2 : ¬ (h.h_buffer_credits <
          21 * (h.h_user_credits + n) + 3) := by omega
      simp [__ext4_journal_extend, hv, hd2, hstb]
      omega
  · intro jabort he
    by_cases hj : jabort
    · exfalso
      simp [__ext4_journal_restart, hv, hj, jbd2_journal_restart] at he
    · simp [__ext4_journal_restart, hv, hj, jbd2_journal_restart, hstb, hsst]

/-- Witness for C6: after the granted Scenario B extend, the handle holds 171
buffer credits for 8 user credits, and 21*8 + 3 = 171 is within that. -/
theorem snapshot_credit_invariant_witness :
    (__ext4_journal_extend 4096 true true ⟨111, 5, 5, false, false⟩
      3).err = 0 ∧
    EXT4_SNAPSHOT_TRANS_BLOCKS
        (__ext4_journal_extend 4096 true true ⟨111, 5, 5, false, false⟩
          3).state.h_user_credits ≤
      (__ext4_journal_extend 4096 true true ⟨111, 5, 5, false, false⟩
        3).state.h_buffer_credits :=
  ⟨by decide, (snapshot_credit_invariant 4096 true ⟨111, 5, 5, false, false⟩ 3
    (by decide)).2.1 (by decide)⟩

/-- C7: on a handle whose address is below the sentinel threshold, every
credit operation is a uniform no-op reporting success:
ext4_handle_has_enough_credits is true for every needed value,
__ext4_journal_extend and __ext4_journal_restart return 0 without contacting
the Journal or changing the state, ext4_handle_sync does nothing, and
ext4_handle_is_aborted returns false. -/
theorem invalid_handle_noops (addr : Nat) (snap grant jabort : Bool)
    (h : HandleState) (n : Int)
    (hv : addr < EXT4_NOJOURNAL_MAX_REF_COUNT) :
    ext4_handle_valid addr = false ∧
    ext4_handle_has_enough_credits addr snap h n = true ∧
    __ext4_journal_extend addr snap grant h n = ⟨0, h, none⟩ ∧
    __ext4_journal_restart addr snap jabort h n = ⟨0, h, none⟩ ∧
    ext4_handle_sync addr h = h ∧
    ext4_handle_is_aborted addr h = false := by
  have hva : ext4_handle_valid addr = false := by
    simp [ext4_handle_valid, hv]
  refine ⟨hva, ?_, ?_, ?_, ?_, ?_⟩ <;>
    simp [ext4_handle_has_enough_credits, __ext4_journal_extend,
      __ext4_journal_restart, ext4_handle_sync, ext4_handle_is_aborted, hva]

/-- Witness for C7: the null handle (address 0) passes every credit check. -/
theorem invalid_handle_noops_witness :
    (0 : Nat) < EXT4_NOJOURNAL_MAX_REF_COUNT ∧
    ext4_handle_has_enough_credits 0 false ⟨0, 0, 0, false, false⟩ 5 = true :=
  ⟨by decide,
    (invalid_handle_noops 0 false false false ⟨0, 0, 0, false, false⟩ 5
      (by decide)).2.1⟩

/-- C8: EXT4_DATA_TRANS_BLOCKS equals EXT4_SINGLEDATA_TRANS_BLOCKS (27 with
extents, else 8) plus EXT4_XATTR_TRANS_BLOCKS (6) minus 2 plus the quota
terms, evaluating to 12 with extents and quota off and to 31 with extents on
and quota off, for any quota type count. -/
theorem data_trans_blocks_formula :
    (∀ cfg, EXT4_DATA_TRANS_BLOCKS cfg =
      EXT4_SINGLEDATA_TRANS_BLOCKS cfg + EXT4_XATTR_TRANS_BLOCKS - 2 +
        EXT4_MAXQUOTAS_TRANS_BLOCKS cfg) ∧
    (∀ cfg, EXT4_SINGLEDATA_TRANS_BLOCKS cfg =
      if cfg.extents_enabled then 27 else 8) ∧
    (∀ (q : Nat) (snapb : Bool),
      EXT4_DATA_TRANS_BLOCKS ⟨false, false, q, snapb⟩ = 12) ∧
    (∀ (q : Nat) (snapb : Bool),
      EXT4_DATA_TRANS_BLOCKS ⟨true, false, q, snapb⟩ = 31) := by
  refine ⟨fun _ => rfl, fun _ => rfl, ?_, ?_⟩ <;> intro q snapb <;>
    simp [EXT4_DATA_TRANS_BLOCKS, EXT4_SINGLEDATA_TRANS_BLOCKS,
      EXT4_XATTR_TRANS_BLOCKS, EXT4_MAXQUOTAS_TRANS_BLOCKS,
      EXT4_QUOTA_TRANS_BLOCKS]

/-- C9: on a snapshots-enabled filesystem, every regular-file inode with a
journal gets ordered data journaling regardless of the mount's DATA_FLAGS
option or the per-inode journal-data flag: ext4_should_journal_data is false,
ext4_should_order_data is true, ext4_should_writeback_data is false. -/
theorem snapshots_force_ordered_data (i : Inode) (hj : i.has_journal = true)
    (hr : i.is_reg = true) (hs : i.sb_snapshots = true) :
    ext4_should_journal_data i = false ∧
    ext4_should_order_data i = true ∧
    ext4_should_writeback_data i = false := by
  simp [ext4_should_journal_data, ext4_should_order_data,
    ext4_should_writeback_data, hj, hr, hs]

/-- Witness for C9: a regular inode on a snapshots-enabled filesystem whose
mount even asked for journal-data mode, with the per-inode journal-data flag
set, still gets ordered mode. -/
theorem snapshots_force_ordered_data_witness :
    ext4_should_journal_data ⟨true, true, true, DataMode.journalData, true⟩ =
      false ∧
    ext4_should_order_data ⟨true, true, true, DataMode.journalData, true⟩ =
      true ∧
    ext4_should_writeback_data ⟨true, true, true, DataMode.journalData, true⟩ =
      false :=
  snapshots_force_ordered_data ⟨true, true, true, DataMode.journalData, true⟩
    rfl rfl rfl

/-- C10: ext4_handle_valid classifies a handle as invalid exactly when its
address is below EXT4_NOJOURNAL_MAX_REF_COUNT = 4096; in particular the null
handle (address 0) is invalid under this test. -/
theorem handle_valid_sentinel_threshold :
    EXT4_NOJOURNAL_MAX_REF_COUNT = 4096 ∧
    (∀ addr : Nat, ext4_handle_valid addr = false ↔ addr < 4096) ∧
    ext4_handle_valid 0 = false := by
  refine ⟨rfl, ?_, by decide⟩
  intro addr
  by_cases hb : addr < 4096 <;>
    simp [ext4_handle_valid, EXT4_NOJOURNAL_MAX_REF_COUNT, hb]

end Ext4Jbd2
